import Mathlib

/-!
Verification of the PR-review pipeline in `openhands/resolver/review_pr.py`.

The Python source is shallowly embedded: strings are Lean `String`s
(sequences of Unicode code points, matching Python `str` semantics for
`len`, slicing and `split`), optional fields are `Option String`, and the
network / LLM effects are modelled by passing the observed outcome of each
external call (HTTP response, LLM completion result) as an explicit input
to the pipeline function, which returns the list of prompts sent to the
LLM and the list of comments posted.
-/

set_option maxRecDepth 8192

namespace ReviewPr

/-- The PR metadata consumed by `PRReviewer` (mirrors the fields of
`openhands.resolver.interfaces.issue.Issue` that `review_pr.py` reads).
Optional text fields are `Option String`; Python treats both `None` and
`""` as falsy, which the embedding tests explicitly. -/
structure Issue where
  owner : String
  repo : String
  number : Nat
  title : String
  body : Option String
  head_branch : Option String
  base_branch : Option String
deriving DecidableEq

/-- Characters stripped by Python `str.strip()` (ASCII whitespace). -/
def py_is_space (c : Char) : Bool :=
  c = ' ' || c = '\t' || c = '\n' || c = '\r' || c = '\x0b' || c = '\x0c'

/-- Python `s.strip()` on ASCII-whitespace: drop leading and trailing
whitespace characters. -/
def py_strip (s : String) : String :=
  String.mk (((s.data.dropWhile py_is_space).reverse.dropWhile py_is_space).reverse)

/-- Python `s[:n]`: the first `n` code points of `s`. -/
def py_take (s : String) (n : Nat) : String :=
  String.mk (s.data.take n)

/-- Python `s.startswith(p)`. -/
def starts_with (p s : String) : Bool :=
  p.data.isPrefixOf s.data

/-- Split a character list at every occurrence of `c` (Python
`str.split(sep)` semantics: `"".split(sep) == [""]`, trailing separator
yields a trailing empty piece). -/
def split_char (c : Char) : List Char → List (List Char)
  | [] => [[]]
  | x :: xs =>
    if x = c then [] :: split_char c xs
    else
      match split_char c xs with
      | [] => [[x]]
      | l :: ls => (x :: l) :: ls

/-- Python `s.split('\n')`. -/
def split_lines (s : String) : List String :=
  (split_char '\n' s.data).map String.mk

/-! ## Prompt construction (`PRReviewer._build_review_prompt`) -/

/-- `max_diff_length = 10000` in `_build_review_prompt`. -/
def max_diff_length : Nat := 10000

/-- The suffix appended when the diff is truncated. -/
def truncation_marker : String := "\n\n[... diff truncated for length ...]"

/-- `truncated_diff = pr_diff[:max_diff_length]`, with the marker appended
when `len(pr_diff) > max_diff_length`. -/
def truncated_diff (pr_diff : String) : String :=
  if max_diff_length < pr_diff.length then
    py_take pr_diff max_diff_length ++ truncation_marker
  else
    py_take pr_diff max_diff_length

/-- `issue.body if issue.body else 'No description provided'` (Python
truthiness: `None` and `""` both select the placeholder). -/
def prompt_description : Option String → String
  | none => "No description provided"
  | some b => if b = "" then "No description provided" else b

/-- The f-string text of `_build_review_prompt` before the diff. -/
def prompt_meta (issue : Issue) : String :=
  "Please review the following pull request:\n\n**Title:** " ++ issue.title ++
  "\n**PR Number:** #" ++ Nat.repr issue.number ++
  "\n**Repository:** " ++ issue.owner ++ "/" ++ issue.repo ++
  "\n\n**Description:**\n"

/-- Everything of the rendered prompt preceding the (possibly truncated)
diff text. -/
def prompt_head (issue : Issue) : String :=
  prompt_meta issue ++ prompt_description issue.body ++
  "\n\n**Code Changes:**\n```diff\n"

/-- Everything of the rendered prompt following the diff text (the fixed
review instructions). -/
def prompt_tail : String :=
  "\n```\n\nPlease provide a thorough code review covering:\n1. **Code Quality**: Are there any code smells, anti-patterns, or best practice violations?\n2. **Bugs & Issues**: Are there any potential bugs, edge cases, or logical errors?\n3. **Security**: Are there any security vulnerabilities or concerns?\n4. **Performance**: Are there any performance issues or optimization opportunities?\n5. **Maintainability**: Is the code readable, well-structured, and maintainable?\n6. **Testing**: Are there adequate tests? What test cases might be missing?\n\nFormat your response as a structured review with clear sections and actionable feedback.\n"

/-- `PRReviewer._build_review_prompt`. -/
def build_review_prompt (issue : Issue) (pr_diff : String) : String :=
  prompt_head issue ++ truncated_diff pr_diff ++ prompt_tail

/-! ## Comment formatting (`PRReviewer._format_review_output`) -/

/-- The two header parts of `_format_review_output`. -/
def fmt_header (issue : Issue) : String :=
  "## 🤖 AI Code Review: " ++ issue.title ++ "\n\n" ++
  "**PR #" ++ Nat.repr issue.number ++ "** in `" ++ issue.owner ++ "/" ++
  issue.repo ++ "`\n\n"

/-- The PR-description section: emitted only when
`issue.body and issue.body.strip()` is truthy; the stripped body is
truncated to 500 characters with a `...` suffix when longer. -/
def desc_section : Option String → String
  | none => ""
  | some b =>
    if py_strip b = "" then ""
    else
      "### 📋 PR Description\n" ++
      (if 500 < (py_strip b).length then py_take (py_strip b) 500 ++ "...\n\n"
       else py_strip b ++ "\n\n")

/-- The branch-info line, emitted when both `issue.head_branch` and
`issue.base_branch` are truthy. -/
def branch_section (issue : Issue) : String :=
  match issue.head_branch, issue.base_branch with
  | some h, some b =>
    if h = "" then ""
    else if b = "" then ""
    else "**Branches:** `" ++ b ++ "` ← `" ++ h ++ "`\n\n"
  | _, _ => ""

/-- Lines of the diff counted as additions: start with `+` but not `+++`. -/
def count_additions (pr_diff : String) : Nat :=
  ((split_lines pr_diff).filter
    (fun l => starts_with "+" l && !starts_with "+++" l)).length

/-- Lines of the diff counted as deletions: start with `-` but not `---`. -/
def count_deletions (pr_diff : String) : Nat :=
  ((split_lines pr_diff).filter
    (fun l => starts_with "-" l && !starts_with "---" l)).length

/-- Files changed: lines of the diff starting with `diff --git`. -/
def count_files_changed (pr_diff : String) : Nat :=
  ((split_lines pr_diff).filter (fun l => starts_with "diff --git" l)).length

/-- The `**Changes:** ...` summary, computed from the diff passed to
`_format_review_output` (the full diff, not the prompt-truncated one). -/
def changes_line (pr_diff : String) : String :=
  "**Changes:** " ++ Nat.repr (count_files_changed pr_diff) ++
  " file(s) changed, " ++ "+" ++ Nat.repr (count_additions pr_diff) ++
  " additions, -" ++ Nat.repr (count_deletions pr_diff) ++ " deletions\n\n"

/-- The review-feedback section wrapping the LLM text verbatim. -/
def review_section (llm_review : String) : String :=
  "### 🔍 Review Feedback\n\n" ++ llm_review ++ "\n\n"

/-- The fixed footer of the formatted comment. -/
def fmt_footer : String :=
  "---\n" ++ "*🤖 Review generated by [ForteBank AI PR Reviewer] powered by AI*\n"

/-- `PRReviewer._format_review_output`: joins the output parts in source
order. -/
def format_review_output (issue : Issue) (llm_review : String)
    (pr_diff : String) : String :=
  fmt_header issue ++ desc_section issue.body ++ branch_section issue ++
  changes_line pr_diff ++ "---\n\n" ++ review_section llm_review ++ fmt_footer

/-! ## The review pipeline (`PRReviewer.review`)

The two external effects are passed in explicitly: the HTTP response
observed by `_fetch_pr_diff`, and the outcome of `llm.completion` inside
`_generate_code_review`. The pipeline returns its final result together
with the trace of prompts sent to the LLM and comments posted. -/

/-- The HTTP response received by `requests.get` in `_fetch_pr_diff`. -/
structure HttpResponse where
  status : Nat
  text : String
deriving DecidableEq

/-- The error raised by `response.raise_for_status()` (a
`requests.HTTPError` carrying the response status); plays the role of the
spec taxonomy entry `DiffUnavailable`, carrying the underlying cause. -/
inductive DiffError where
  | http_error (status : Nat)
deriving DecidableEq

/-- `response.raise_for_status()`: raises exactly when the status code is
in the client-error or server-error range (400–599). -/
def raise_for_status (r : HttpResponse) : Except DiffError Unit :=
  if 400 ≤ r.status ∧ r.status ≤ 599 then .error (.http_error r.status)
  else .ok ()

/-- `PRReviewer._fetch_pr_diff`: returns `response.text` as the diff, or
propagates the `raise_for_status` error. -/
def fetch_pr_diff (r : HttpResponse) : Except DiffError String :=
  match raise_for_status r with
  | .error e => .error e
  | .ok _ => .ok r.text

/-- Outcome of the `llm.completion` call in `_generate_code_review`:
either the completion content (`response.choices[0].message.content`) or
an exception (carrying its message), which the source catches. -/
inductive LlmResult where
  | ok (content : String)
  | failure (err : String)
deriving DecidableEq

/-- The fallback review content assigned when `llm.completion` raises. -/
def fallback_review : String :=
  "*Unable to generate automated review. Please review manually.*"

/-- The `review_content` variable of `_generate_code_review` after the
try/except block. -/
def review_content_of : LlmResult → String
  | .ok c => c
  | .failure _ => fallback_review

/-- `PRReviewer._generate_code_review`: builds the prompt, obtains the
LLM outcome, substitutes the fallback on failure, and formats the final
review with the full (untruncated) diff. -/
def generate_code_review (issue : Issue) (pr_diff : String)
    (llm : LlmResult) : String :=
  format_review_output issue (review_content_of llm) pr_diff

/-- Observable trace of one `review()` run: the prompts sent to the LLM
(user-message contents of `llm.completion` calls) and the comments passed
to `send_comment_msg`. -/
structure ReviewTrace where
  llm_prompts : List String
  posted : List String
deriving DecidableEq

/-- `PRReviewer.review`: fetch the diff (propagating any `HTTPError`
before anything else happens), then unconditionally generate the review
(one LLM call with the built prompt) and post exactly one comment. -/
def review (issue : Issue) (resp : HttpResponse) (llm : LlmResult) :
    Except DiffError Unit × ReviewTrace :=
  match fetch_pr_diff resp with
  | .error e => (.error e, ⟨[], []⟩)
  | .ok pr_diff =>
    (.ok (), ⟨[build_review_prompt issue pr_diff],
              [generate_code_review issue pr_diff llm]⟩)

/-! ## ResponseParser (spec §4.4)

No response-parsing code exists under `src/`; the parser below is
modelled from the spec, which prescribes fence-aware extraction followed
by strict JSON-object parsing into a `StructuredReview`, with an
"unstructured" raw-text fallback on any parse failure. -/

/-- Modelled from the spec: a file-scoped review comment of a
`StructuredReview` (`comments[{file, line, content}]`, §4.4). -/
structure ReviewComment where
  file : String
  line : Int
  content : String
deriving DecidableEq

/-- Modelled from the spec: the `StructuredReview` record of §3/§4.4
(recommendation, summary, general_feedback, ordered comments). -/
structure StructuredReview where
  recommendation : String
  summary : String
  general_feedback : String
  comments : List ReviewComment
deriving DecidableEq

/-- JSON values, for the strict JSON-object parse of §4.4. -/
inductive JVal where
  | jnull
  | jbool (b : Bool)
  | jnum (n : Int)
  | jstr (s : String)
  | jarr (elems : List JVal)
  | jobj (fields : List (String × JVal))

/-- JSON insignificant whitespace. -/
def json_ws (c : Char) : Bool :=
  c = ' ' || c = '\t' || c = '\n' || c = '\r'

/-- The simple JSON string escapes (the model rejects `\u` escapes; a
rejection only sends a text to the raw-fallback path). -/
def esc_char : Char → Option Char
  | '"' => some '"'
  | '\\' => some '\\'
  | '/' => some '/'
  | 'b' => some '\x08'
  | 'f' => some '\x0c'
  | 'n' => some '\n'
  | 'r' => some '\r'
  | 't' => some '\t'
  | _ => none

/-- Parse the body of a JSON string after the opening quote; rejects
unescaped control characters, as strict JSON does. -/
def parse_jstring_chars : List Char → Option (List Char × List Char)
  | [] => none
  | '"' :: rest => some ([], rest)
  | '\\' :: c :: rest =>
    match esc_char c with
    | none => none
    | some e =>
      match parse_jstring_chars rest with
      | none => none
      | some (cs, r) => some (e :: cs, r)
  | c :: rest =>
    if c.toNat < 32 then none
    else
      match parse_jstring_chars rest with
      | none => none
      | some (cs, r) => some (c :: cs, r)

/-- Longest digit run at the head of the input. -/
def span_digits : List Char → List Char × List Char
  | [] => ([], [])
  | c :: cs =>
    if c.isDigit then
      match span_digits cs with
      | (d, r) => (c :: d, r)
    else ([], c :: cs)

/-- Decimal value of a digit run. -/
def digits_val (ds : List Char) : Nat :=
  ds.foldl (fun a c => a * 10 + (c.toNat - 48)) 0

/-- Parse a JSON unsigned integer (strict: no leading zeros, and the
model rejects fractions/exponents, which only shrinks the accepted set). -/
def parse_unum (cs : List Char) : Option (Nat × List Char) :=
  match span_digits cs with
  | (ds, r) =>
    if ds = [] then none
    else if 1 < ds.length ∧ ds.head? = some '0' then none
    else
      match r with
      | '.' :: _ => none
      | 'e' :: _ => none
      | 'E' :: _ => none
      | _ => some (digits_val ds, r)

/-- Parse a JSON integer with optional leading minus. -/
def parse_jnum_core (cs : List Char) : Option (Int × List Char) :=
  match cs with
  | '-' :: rest =>
    match parse_unum rest with
    | some (n, r) => some (-(n : Int), r)
    | none => none
  | _ =>
    match parse_unum cs with
    | some (n, r) => some ((n : Int), r)
    | none => none

mutual

/-- Fuel-indexed JSON value parser (the fuel bounds nesting depth; the
top-level entry supplies ample fuel). -/
def parse_jval : Nat → List Char → Option (JVal × List Char)
  | 0, _ => none
  | fuel + 1, cs =>
    match List.dropWhile json_ws cs with
    | 'n' :: 'u' :: 'l' :: 'l' :: r => some (.jnull, r)
    | 't' :: 'r' :: 'u' :: 'e' :: r => some (.jbool true, r)
    | 'f' :: 'a' :: 'l' :: 's' :: 'e' :: r => some (.jbool false, r)
    | '"' :: r =>
      match parse_jstring_chars r with
      | some (s, r2) => some (.jstr (String.mk s), r2)
      | none => none
    | '[' :: r =>
      match List.dropWhile json_ws r with
      | ']' :: r2 => some (.jarr [], r2)
      | r2 =>
        match parse_jelems fuel r2 with
        | some (vs, r3) => some (.jarr vs, r3)
        | none => none
    | '\x7b' :: r =>
      match List.dropWhile json_ws r with
      | '\x7d' :: r2 => some (.jobj [], r2)
      | r2 =>
        match parse_jfields fuel r2 with
        | some (fs, r3) => some (.jobj fs, r3)
        | none => none
    | r =>
      match parse_jnum_core r with
      | some (n, r2) => some (.jnum n, r2)
      | none => none

/-- Parse one-or-more comma-separated array elements up to `]`. -/
def parse_jelems : Nat → List Char → Option (List JVal × List Char)
  | 0, _ => none
  | fuel + 1, cs =>
    match parse_jval fuel cs with
    | none => none
    | some (v, r) =>
      match List.dropWhile json_ws r with
      | ',' :: r2 =>
        match parse_jelems fuel r2 with
        | some (vs, r3) => some (v :: vs, r3)
        | none => none
      | ']' :: r2 => some ([v], r2)
      | _ => none

/-- Parse one-or-more `"key": value` object members up to the closing
brace. -/
def parse_jfields : Nat → List Char → Option (List (String × JVal) × List Char)
  | 0, _ => none
  | fuel + 1, cs =>
    match List.dropWhile json_ws cs with
    | '"' :: r =>
      match parse_jstring_chars r with
      | none => none
      | some (k, r2) =>
        match List.dropWhile json_ws r2 with
        | ':' :: r3 =>
          match parse_jval fuel r3 with
          | none => none
          | some (v, r4) =>
            match List.dropWhile json_ws r4 with
            | ',' :: r5 =>
              match parse_jfields fuel r5 with
              | some (fs, r6) => some ((String.mk k, v) :: fs, r6)
              | none => none
            | '\x7d' :: r5 => some ([(String.mk k, v)], r5)
            | _ => none
        | _ => none
    | _ => none

end

/-- Strict top-level JSON parse: one value, nothing but whitespace after
it. -/
def parse_json (s : String) : Option JVal :=
  match parse_jval (2 * s.length + 2) s.data with
  | some (v, r) =>
    match List.dropWhile json_ws r with
    | [] => some v
    | _ => none
  | none => none

/-- Duplicate object keys resolve to the last occurrence (as Python
`json.loads` does). -/
def jlookup (fields : List (String × JVal)) (k : String) : Option JVal :=
  match fields with
  | [] => none
  | (k2, v) :: rest =>
    match jlookup rest k with
    | some v2 => some v2
    | none => if k2 = k then some v else none

/-- Split a character list around the first occurrence of `pat`:
`some (before, after)` when `pat` occurs, `none` otherwise. -/
def split_first (pat : List Char) : List Char → Option (List Char × List Char)
  | [] => if pat.isPrefixOf ([] : List Char) then some ([], []) else none
  | c :: cs =>
    if pat.isPrefixOf (c :: cs) then some ([], (c :: cs).drop pat.length)
    else
      match split_first pat cs with
      | some (pre, post) => some (c :: pre, post)
      | none => none

/-- Modelled from the spec: the §4.4 extraction algorithm. 1. If the text
contains a json-tagged fence, take the content between that fence and
the next fence marker (to end of text when unclosed). 2. Else, with any
fence present, take the content between the first pair of fence markers.
3. Else the full text verbatim. -/
def extract_json_block (text : String) : String :=
  match split_first ("```json".data) text.data with
  | some (_, rest) =>
    match split_first ("```".data) rest with
    | some (inner, _) => String.mk inner
    | none => String.mk rest
  | none =>
    match split_first ("```".data) text.data with
    | some (_, rest) =>
      match split_first ("```".data) rest with
      | some (inner, _) => String.mk inner
      | none => String.mk rest
    | none => text

/-- Parse a `comments` array element: an object with string `file`,
integer `line`, string `content`. -/
def parse_review_comment : JVal → Option ReviewComment
  | .jobj fs =>
    match jlookup fs "file", jlookup fs "line", jlookup fs "content" with
    | some (.jstr f), some (.jnum l), some (.jstr c) => some ⟨f, l, c⟩
    | _, _, _ => none
  | _ => none

/-- Modelled from the spec: strict structured parsing of the extracted
text into a `StructuredReview` (§4.4): a JSON object with string
`recommendation` and `summary`, an array `comments` of well-formed
comment objects, and an optional string `general_feedback` (defaulting
to `""`, cf. the §8 example which omits it). -/
def parse_structured_review (text : String) : Option StructuredReview :=
  match parse_json text with
  | some (.jobj fs) =>
    match jlookup fs "recommendation", jlookup fs "summary",
          jlookup fs "comments" with
    | some (.jstr recm), some (.jstr summ), some (.jarr cs) =>
      match jlookup fs "general_feedback" with
      | none =>
        match cs.mapM parse_review_comment with
        | some rcs => some ⟨recm, summ, "", rcs⟩
        | none => none
      | some (.jstr gf) =>
        match cs.mapM parse_review_comment with
        | some rcs => some ⟨recm, summ, gf, rcs⟩
        | none => none
      | some _ => none
    | _, _, _ => none
  | _ => none

/-- Result of the two-tier parsing contract: structured data, or the raw
text signalled as "unstructured". -/
inductive ParseResult where
  | structured (r : StructuredReview)
  | unstructured (raw : String)
deriving DecidableEq

/-- Modelled from the spec: the full ResponseParser — fence-aware
extraction, strict parse, raw-text fallback. Total by construction, so
no input can escalate to an unhandled exception. -/
def parse_review (text : String) : ParseResult :=
  match parse_structured_review (extract_json_block text) with
  | some r => .structured r
  | none => .unstructured text

/-! ## Substring containment and concrete test fixtures -/

/-- `p` occurs contiguously (as a code-point sequence) inside `s`. -/
def str_occurs (p s : String) : Prop :=
  p.data <:+: s.data

instance str_occurs_decidable (p s : String) : Decidable (str_occurs p s) :=
  List.decidableInfix p.data s.data

/-- A concrete PR used as test input. -/
def ex_issue : Issue :=
  ⟨"octo", "hello", 7, "Fix bug", some "Body text", some "fix", some "main"⟩

/-- A concrete PR with no description. -/
def ex_issue_nobody : Issue :=
  ⟨"octo", "hello", 7, "Fix bug", none, some "fix", some "main"⟩

/-- A diff exceeding the 10,000-character prompt bound. -/
def long_diff : String := String.mk (List.replicate 10001 'x')

/-- A review text exceeding the 65,000-character platform bound. -/
def big_review : String := String.mk (List.replicate 65001 'a')

/-- The spec §8 well-formed review object, bare. -/
def bare_review_json : String :=
  "\x7b\"recommendation\":\"approve\",\"summary\":\"ok\",\"comments\":[]\x7d"

/-- The same object wrapped in a json-tagged code fence. -/
def json_fenced_review : String := "```json\n" ++ bare_review_json ++ "\n```"

/-- The same object wrapped in an untagged code fence. -/
def plain_fenced_review : String := "```\n" ++ bare_review_json ++ "\n```"

/-- A malformed completion (truncated braces, cf. spec §8). -/
def malformed_review_text : String := "\x7b\"recommendation\": \"app"

/-- A PR body longer than the 500-character description bound. -/
def ex_long_body : String := String.mk (List.replicate 501 'b')

/-! ## Helper lemmas -/

theorem str_data_append (a b : String) : (a ++ b).data = a.data ++ b.data := rfl

theorem str_length_eq_data (s : String) : s.length = s.data.length := rfl

theorem str_length_append (a b : String) :
    (a ++ b).length = a.length + b.length := by
  show (a.data ++ b.data).length = a.data.length + b.data.length
  exact List.length_append a.data b.data

theorem str_mk_length (l : List Char) : (String.mk l).length = l.length := rfl

theorem str_ext_data (a b : String) (h : a.data = b.data) : a = b :=
  congrArg String.mk h

theorem str_append_assoc (a b c : String) : a ++ b ++ c = a ++ (b ++ c) := by
  apply str_ext_data
  simp [str_data_append]

/-- Unfolding equation for `desc_section` at a present body. -/
theorem desc_section_some (b : String) :
    desc_section (some b) =
      if py_strip b = "" then ""
      else
        "### 📋 PR Description\n" ++
        (if 500 < (py_strip b).length then py_take (py_strip b) 500 ++ "...\n\n"
         else py_strip b ++ "\n\n") := rfl

theorem str_occurs_refl (p : String) : str_occurs p p :=
  ⟨[], [], by simp⟩

theorem str_occurs_appl (p a b : String) (h : str_occurs p a) :
    str_occurs p (a ++ b) := by
  obtain ⟨s, t, hs⟩ := h
  exact ⟨s, t ++ b.data, by rw [str_data_append, ← hs]; simp⟩

theorem str_occurs_appr (p a b : String) (h : str_occurs p b) :
    str_occurs p (a ++ b) := by
  obtain ⟨s, t, hs⟩ := h
  exact ⟨a.data ++ s, t, by rw [str_data_append, ← hs]; simp⟩

theorem str_occurs_length_le (p s : String) (h : str_occurs p s) :
    p.length ≤ s.length :=
  h.length_le

theorem py_take_of_length_le (s : String) (n : Nat) (h : s.length ≤ n) :
    py_take s n = s := by
  unfold py_take
  rw [List.take_of_length_le h]

theorem py_take_length_of_le (s : String) (n : Nat) (h : n ≤ s.length) :
    (py_take s n).length = n := by
  unfold py_take
  rw [str_mk_length, List.length_take]
  exact Nat.min_eq_left h

theorem truncated_diff_of_le (d : String) (h : d.length ≤ max_diff_length) :
    truncated_diff d = d := by
  unfold truncated_diff
  rw [if_neg (by omega), py_take_of_length_le d _ h]

theorem truncated_diff_of_gt (d : String) (h : max_diff_length < d.length) :
    truncated_diff d = py_take d max_diff_length ++ truncation_marker := by
  unfold truncated_diff
  rw [if_pos h]

theorem truncated_section_length (d : String) (h : max_diff_length < d.length) :
    (py_take d max_diff_length ++ truncation_marker).length =
      max_diff_length + truncation_marker.length := by
  rw [str_length_append, py_take_length_of_le d _ (Nat.le_of_lt h)]

/-- The review text occurs verbatim inside the formatted comment. -/
theorem review_text_infix_format (issue : Issue) (r d : String) :
    str_occurs r (format_review_output issue r d) := by
  unfold format_review_output
  apply str_occurs_appl
  apply str_occurs_appr
  unfold review_section
  apply str_occurs_appl
  apply str_occurs_appr
  exact str_occurs_refl r

/-- The changes summary occurs verbatim inside the formatted comment. -/
theorem changes_line_infix_format (issue : Issue) (r d : String) :
    str_occurs (changes_line d) (format_review_output issue r d) := by
  unfold format_review_output
  apply str_occurs_appl
  apply str_occurs_appl
  apply str_occurs_appl
  apply str_occurs_appr
  exact str_occurs_refl (changes_line d)

/-- A successful (2xx) diff fetch runs the full pipeline: one prompt sent
to the LLM, one comment posted. -/
theorem review_status_ok (issue : Issue) (t : String) (llm : LlmResult) :
    review issue ⟨200, t⟩ llm =
      (.ok (), ⟨[build_review_prompt issue t],
                [generate_code_review issue t llm]⟩) := by
  unfold review fetch_pr_diff raise_for_status
  rw [if_neg (by omega : ¬(400 ≤ (200 : Nat) ∧ (200 : Nat) ≤ 599))]

/-! ## Claims -/

/-- C1 (counterexample): with an empty acquired diff (HTTP 200, body
`""`), `review` does not short-circuit — the trace records an LLM
request and a posted comment, contradicting the claim that the pipeline
terminates with no LLM call and no comment. -/
theorem c1_counterexample :
    (review ex_issue ⟨200, ""⟩ (.ok "looks fine")).2.llm_prompts ≠ [] ∧
    (review ex_issue ⟨200, ""⟩ (.ok "looks fine")).2.posted ≠ [] := by
  rw [review_status_ok]
  exact ⟨List.cons_ne_nil _ _, List.cons_ne_nil _ _⟩

/-- C1 (amended): for every change request whose acquired diff is empty
or whitespace-only, the pipeline does NOT short-circuit: it sends exactly
one LLM request (with the prompt built from the empty diff) and posts
exactly one comment, the same as for any other diff. -/
theorem c1_empty_diff_no_short_circuit (issue : Issue) (t : String)
    (llm : LlmResult) (_h : py_strip t = "") :
    review issue ⟨200, t⟩ llm =
      (.ok (), ⟨[build_review_prompt issue t],
                [generate_code_review issue t llm]⟩) :=
  review_status_ok issue t llm

/-- C1 witness: the amended theorem applied to a whitespace-only diff. -/
theorem c1_witness :
    py_strip "  \n " = "" ∧
    review ex_issue ⟨200, "  \n "⟩ (.ok "looks fine") =
      (.ok (), ⟨[build_review_prompt ex_issue "  \n "],
                [generate_code_review ex_issue "  \n " (.ok "looks fine")]⟩) :=
  ⟨by decide,
   c1_empty_diff_no_short_circuit ex_issue "  \n " (.ok "looks fine") (by decide)⟩

/-- C3 (confirmed): for a diff of at most 10,000 characters the rendered
prompt embeds the diff verbatim with nothing appended; for a longer diff
the diff section of the prompt is exactly the first 10,000 characters
followed by the truncation marker, its total length being the bound plus
the marker length. -/
theorem c3_diff_truncation (issue : Issue) (d : String) :
    (d.length ≤ max_diff_length →
      build_review_prompt issue d = prompt_head issue ++ d ++ prompt_tail) ∧
    (max_diff_length < d.length →
      build_review_prompt issue d =
        prompt_head issue ++ (py_take d max_diff_length ++ truncation_marker) ++
          prompt_tail ∧
      (py_take d max_diff_length ++ truncation_marker).length =
        max_diff_length + truncation_marker.length) := by
  constructor
  · intro h
    unfold build_review_prompt
    rw [truncated_diff_of_le d h]
  · intro h
    refine ⟨?_, truncated_section_length d h⟩
    unfold build_review_prompt
    rw [truncated_diff_of_gt d h]

/-- C3 witness: both branches of the truncation theorem at concrete
diffs (a 2-character diff and a 10,001-character diff). -/
theorem c3_witness :
    (("+a".length ≤ max_diff_length) ∧
      build_review_prompt ex_issue "+a" =
        prompt_head ex_issue ++ "+a" ++ prompt_tail) ∧
    ((max_diff_length < long_diff.length) ∧
      build_review_prompt ex_issue long_diff =
        prompt_head ex_issue ++
          (py_take long_diff max_diff_length ++ truncation_marker) ++
          prompt_tail ∧
      (py_take long_diff max_diff_length ++ truncation_marker).length =
        max_diff_length + truncation_marker.length) := by
  have hlong : max_diff_length < long_diff.length := by
    rw [long_diff, str_mk_length, List.length_replicate]
    decide
  exact ⟨⟨by decide, (c3_diff_truncation ex_issue "+a").1 (by decide)⟩,
         ⟨hlong, (c3_diff_truncation ex_issue long_diff).2 hlong⟩⟩

/-- C6 (confirmed): when the diff-acquisition HTTP request receives an
error status (the 4xx/5xx range, on which `raise_for_status` raises),
the review fails terminally with the diff-unavailability error carrying
the status as its cause: no LLM request is made and no comment is
posted. -/
theorem c6_diff_unavailable (issue : Issue) (s : Nat) (t : String)
    (llm : LlmResult) (h4 : 400 ≤ s) (h5 : s ≤ 599) :
    review issue ⟨s, t⟩ llm = (.error (.http_error s), ⟨[], []⟩) := by
  unfold review fetch_pr_diff raise_for_status
  rw [if_pos ⟨h4, h5⟩]

/-- C6 witness: a 404 response aborts the review with the cause recorded
and an empty trace. -/
theorem c6_witness :
    (400 ≤ 404 ∧ 404 ≤ 599) ∧
    review ex_issue ⟨404, "Not Found"⟩ (.ok "r") =
      (.error (.http_error 404), ⟨[], []⟩) :=
  ⟨by decide, c6_diff_unavailable ex_issue 404 "Not Found" (.ok "r")
    (by decide) (by decide)⟩

/-- C2 (counterexample): on LLM failure the review content substituted
by the code is the markdown string
`*Unable to generate automated review. Please review manually.*`; the
claimed string `unable to generate automated review; please review
manually` is not the substituted content and occurs nowhere in the
posted comment. -/
theorem c2_counterexample :
    review_content_of (.failure "timeout") = fallback_review ∧
    review_content_of (.failure "timeout") ≠
      "unable to generate automated review; please review manually" :=
  ⟨rfl, by decide⟩

/-- C2 (amended): on LLM completion failure the invoker does not
propagate the exception: it substitutes the fixed fallback string
`*Unable to generate automated review. Please review manually.*` as the
review content, and the pipeline still formats and posts exactly one
comment, which carries the fallback text. -/
theorem c2_llm_failure_fallback (issue : Issue) (d err : String) :
    review issue ⟨200, d⟩ (.failure err) =
      (.ok (), ⟨[build_review_prompt issue d],
                [format_review_output issue fallback_review d]⟩) ∧
    str_occurs fallback_review (format_review_output issue fallback_review d) :=
  ⟨review_status_ok issue d (.failure err),
   review_text_infix_format issue fallback_review d⟩

/-- C4 (confirmed, spec-modelled parser): the §8 well-formed review
object parses to the same `StructuredReview` whether bare, wrapped in a
json-tagged fence, or wrapped in an untagged fence. -/
theorem c4_fence_invariance :
    parse_review bare_review_json = parse_review json_fenced_review ∧
    parse_review bare_review_json = parse_review plain_fenced_review ∧
    parse_review bare_review_json =
      .structured ⟨"approve", "ok", "", []⟩ := by
  refine ⟨?_, ?_, ?_⟩ <;> decide

/-- C5 (confirmed, spec-modelled parser): any completion text on which
the strict structured parse fails is signalled as an "unstructured"
result (the parser is a total function, so no input raises), and the raw
text is preserved byte-for-byte inside the formatted fallback comment. -/
theorem c5_parse_failure_preserves_raw (text : String)
    (h : parse_structured_review (extract_json_block text) = none) :
    parse_review text = .unstructured text ∧
    ∀ (issue : Issue) (d : String),
      str_occurs text (format_review_output issue text d) := by
  constructor
  · unfold parse_review
    rw [h]
  · intro issue d
    exact review_text_infix_format issue text d

/-- C5 witness: the truncated-braces completion of spec §8 is signalled
unstructured and carried verbatim in the comment. -/
theorem c5_witness :
    parse_structured_review (extract_json_block malformed_review_text) = none ∧
    parse_review malformed_review_text = .unstructured malformed_review_text ∧
    str_occurs malformed_review_text
      (format_review_output ex_issue malformed_review_text "+a\n") :=
  ⟨by decide,
   (c5_parse_failure_preserves_raw malformed_review_text (by decide)).1,
   (c5_parse_failure_preserves_raw malformed_review_text (by decide)).2
     ex_issue "+a\n"⟩

/-- C7 (counterexample): for an absent body the description slot renders
`No description provided` (capital N), which differs from the claimed
lowercase placeholder `no description provided`. -/
theorem c7_counterexample :
    prompt_description none = "No description provided" ∧
    prompt_description none ≠ "no description provided" :=
  ⟨rfl, by decide⟩

/-- C7 (amended): prompt rendering is deterministic — it depends only on
the title, number, owner, repo and body of the change request together
with the diff — and an absent body renders the explicit placeholder
`No description provided` inside the prompt. -/
theorem c7_prompt_deterministic (i j : Issue) (d e : String)
    (ht : i.title = j.title) (hn : i.number = j.number)
    (ho : i.owner = j.owner) (hr : i.repo = j.repo) (hb : i.body = j.body)
    (hd : d = e) :
    build_review_prompt i d = build_review_prompt j e ∧
    (i.body = none →
      str_occurs "No description provided" (build_review_prompt i d)) := by
  constructor
  · unfold build_review_prompt prompt_head prompt_meta
    rw [ht, hn, ho, hr, hb, hd]
  · intro hnone
    unfold build_review_prompt
    apply str_occurs_appl
    apply str_occurs_appl
    unfold prompt_head
    apply str_occurs_appl
    apply str_occurs_appr
    rw [hnone]
    exact str_occurs_refl "No description provided"

/-- C7 witness: the determinism and placeholder conclusions at a concrete
change request with absent body. -/
theorem c7_witness :
    build_review_prompt ex_issue_nobody "+a\n" =
      build_review_prompt ex_issue_nobody "+a\n" ∧
    str_occurs "No description provided"
      (build_review_prompt ex_issue_nobody "+a\n") :=
  ⟨(c7_prompt_deterministic ex_issue_nobody ex_issue_nobody "+a\n" "+a\n"
      rfl rfl rfl rfl rfl rfl).1,
   (c7_prompt_deterministic ex_issue_nobody ex_issue_nobody "+a\n" "+a\n"
      rfl rfl rfl rfl rfl rfl).2 rfl⟩

/-- C8 (counterexample): the formatter enforces no total-size cap — with
a 65,001-character review text the formatted comment exceeds the claimed
65,000-character platform bound. -/
theorem c8_counterexample :
    65000 < (format_review_output ex_issue big_review "+a\n").length := by
  have h := str_occurs_length_le big_review _
    (review_text_infix_format ex_issue big_review "+a\n")
  have hb : big_review.length = 65001 := by
    rw [big_review, str_mk_length, List.length_replicate]
  omega

/-- C8 (amended): the formatted comment is not capped: it always contains
the full review text verbatim, so whenever the review text alone exceeds
65,000 characters the comment does too. -/
theorem c8_no_size_cap (issue : Issue) (r d : String) :
    str_occurs r (format_review_output issue r d) ∧
    (65000 < r.length → 65000 < (format_review_output issue r d).length) := by
  refine ⟨review_text_infix_format issue r d, fun h => ?_⟩
  have hle := str_occurs_length_le r _ (review_text_infix_format issue r d)
  omega

/-- C8 witness: the no-cap theorem applied to the 65,001-character
review text. -/
theorem c8_witness :
    65000 < big_review.length ∧
    65000 < (format_review_output ex_issue_nobody big_review "").length := by
  have hb : big_review.length = 65001 := by
    rw [big_review, str_mk_length, List.length_replicate]
  exact ⟨by omega, (c8_no_size_cap ex_issue_nobody big_review "").2 (by omega)⟩

/-- C9 (confirmed): the posted comment carries the changes summary
computed from the full diff (`+`/`-`/`diff --git` line counts), even
when the diff exceeds the prompt bound, in which case the prompt sent to
the LLM used the truncated diff section instead. -/
theorem c9_changes_from_full_diff (issue : Issue) (d : String)
    (llm : LlmResult) :
    (review issue ⟨200, d⟩ llm).2.posted =
      [format_review_output issue (review_content_of llm) d] ∧
    str_occurs (changes_line d)
      (format_review_output issue (review_content_of llm) d) ∧
    (max_diff_length < d.length →
      (review issue ⟨200, d⟩ llm).2.llm_prompts =
        [prompt_head issue ++
          (py_take d max_diff_length ++ truncation_marker) ++ prompt_tail]) := by
  refine ⟨?_, changes_line_infix_format issue (review_content_of llm) d, ?_⟩
  · rw [review_status_ok]
    rfl
  · intro h
    rw [review_status_ok]
    show [build_review_prompt issue d] = _
    unfold build_review_prompt
    rw [truncated_diff_of_gt d h]

/-- C9 witness: at a 10,001-character diff the comment reports the
full-diff changes summary while the prompt was truncated. -/
theorem c9_witness :
    max_diff_length < long_diff.length ∧
    ((review ex_issue ⟨200, long_diff⟩ (.ok "r")).2.posted =
      [format_review_output ex_issue (review_content_of (.ok "r")) long_diff] ∧
     str_occurs (changes_line long_diff)
       (format_review_output ex_issue (review_content_of (.ok "r")) long_diff) ∧
     (max_diff_length < long_diff.length →
       (review ex_issue ⟨200, long_diff⟩ (.ok "r")).2.llm_prompts =
         [prompt_head ex_issue ++
           (py_take long_diff max_diff_length ++ truncation_marker) ++
           prompt_tail])) := by
  have hlong : max_diff_length < long_diff.length := by
    rw [long_diff, str_mk_length, List.length_replicate]
    decide
  exact ⟨hlong, c9_changes_from_full_diff ex_issue long_diff (.ok "r")⟩

/-- C10 (confirmed): a body whose stripped text exceeds 500 characters
renders as exactly the first 500 stripped characters followed by `...`;
an absent or whitespace-only body omits the description section entirely;
and the description section is exactly the corresponding slice of the
formatted comment. -/
theorem c10_description_truncation (ob : Option String) :
    (∀ b, ob = some b → 500 < (py_strip b).length →
      desc_section ob =
        "### 📋 PR Description\n" ++ py_take (py_strip b) 500 ++ "...\n\n") ∧
    ((ob = none ∨ ∃ b, ob = some b ∧ py_strip b = "") →
      desc_section ob = "") ∧
    (∀ (issue : Issue) (r d : String), issue.body = ob →
      format_review_output issue r d =
        fmt_header issue ++ desc_section ob ++ branch_section issue ++
          changes_line d ++ "---\n\n" ++ review_section r ++ fmt_footer) := by
  refine ⟨?_, ?_, ?_⟩
  · intro b hb hlen
    subst hb
    have hne : ¬ py_strip b = "" := by
      intro he
      rw [he] at hlen
      simp at hlen
    rw [desc_section_some, if_neg hne, if_pos hlen, str_append_assoc]
  · intro h
    rcases h with h | ⟨b, hb, hstrip⟩
    · subst h
      rfl
    · subst hb
      rw [desc_section_some, if_pos hstrip]
  · intro issue r d hb
    unfold format_review_output
    rw [hb]

/-- C10 witness: a 501-character body truncates to its first 500
characters with `...`; an absent body omits the section. -/
theorem c10_witness :
    (500 < (py_strip ex_long_body).length ∧
      desc_section (some ex_long_body) =
        "### 📋 PR Description\n" ++ py_take (py_strip ex_long_body) 500 ++
          "...\n\n") ∧
    desc_section none = "" ∧
    format_review_output ex_issue_nobody "r" "+a\n" =
      fmt_header ex_issue_nobody ++ desc_section none ++
        branch_section ex_issue_nobody ++ changes_line "+a\n" ++ "---\n\n" ++
        review_section "r" ++ fmt_footer := by
  have h5 : 500 < (py_strip ex_long_body).length := by decide
  exact ⟨⟨h5, (c10_description_truncation (some ex_long_body)).1
           ex_long_body rfl h5⟩,
         (c10_description_truncation none).2.1 (Or.inl rfl),
         (c10_description_truncation none).2.2 ex_issue_nobody "r" "+a\n" rfl⟩

end ReviewPr
